import Mathlib

/-!
# Verification of the InvokeAI model-install frontend core

Shallow embedding of `invokeai/frontend/install/model_install.py`:
the selection-reconciliation logic in `addModelsForm.marshall_arguments`,
the channel-polling loop in `addModelsForm.while_waiting`, and the worker
body `process_and_execute`.
-/

namespace ModelInstall

/-- Helper for `pySplit`: walk the characters, accumulating the current
word (reversed); whitespace closes the current word, empty words are
discarded. -/
def splitWsAux : List Char → List Char → List String
  | [], acc => if acc.isEmpty then [] else [String.mk acc.reverse]
  | c :: cs, acc =>
      if c.isWhitespace then
        (if acc.isEmpty then [] else [String.mk acc.reverse]) ++ splitWsAux cs []
      else
        splitWsAux cs (c :: acc)

/-- Python `str.split()` with no argument: split on runs of whitespace,
discarding empty fragments. -/
def pySplit (s : String) : List String :=
  splitWsAux s.data []

/-- Python `str.strip('\n')`: remove leading and trailing newline characters.
In `while_waiting` the result of this call is discarded (line 495 of the
source: `data.strip('\n')` is not assigned). -/
def pyStripNewlines (s : String) : String :=
  String.mk (((s.data.dropWhile (fun c => c = '\n')).reverse.dropWhile
    (fun c => c = '\n')).reverse)

/-- Python `'/' in x` for a one-character needle: `x` contains the
character `/`. -/
def hasSlash (x : String) : Bool :=
  x.data.contains '/'

/-- Per-category selection snapshot for the non-starter tabs
(additional diffusers / controlnet / lora / textual inversion).
`candidates` is the widget's `values` (the sorted keys of the
`predefined_models` dict), `installed` is the dict lookup
`predefined_models[x]`, `selected` is the widget's `value`
(checked indices), `freeText` is the `download_ids` text box value. -/
structure CatState where
  candidates : List String
  installed : String → Bool
  selected : List Nat
  freeText : String

/-- Source `[widget.values[x] for x in widget.value]`: names at the checked
indices. -/
def selectedNames (st : CatState) : List String :=
  st.selected.filterMap (fun i => st.candidates.get? i)

/-- Source `[values[x] for x in value if not predefined[values[x]]]`:
checked candidates that are not already installed. -/
def baseInstall (st : CatState) : List String :=
  (selectedNames st).filter (fun m => !st.installed m)

/-- Source `[x for x in values if predefined[x] and values.index(x) not in value]`:
installed candidates whose position is not checked. -/
def baseRemove (st : CatState) : List String :=
  st.candidates.filter
    (fun x => st.installed x && !(st.selected.contains (st.candidates.indexOf x)))

/-- The `models_selected` widget exists only when the candidate list is
nonempty (`add_model_widgets` guards on `len(model_list) > 0`); when it is
absent the corresponding `UserSelections` field keeps its default.
Modelled from the spec: `UserSelections` (backend, not in this file's
sources) defaults each install/remove list to empty — §4.1 "if a category
has zero candidates ... the Reconciler still processes free-text and
yields an install-only plan". -/
def widgetInstall (st : CatState) : List String :=
  if st.candidates.isEmpty then [] else baseInstall st

/-- Remove list contributed by the `models_selected` widget when present. -/
def widgetRemove (st : CatState) : List String :=
  if st.candidates.isEmpty then [] else baseRemove st

/-- ControlNet install list: checked-not-installed candidates plus the
free-text entries that contain a `/` (`valid_cns = [x for x in
additional_cns if '/' in x]`, lines 582-584). -/
def cn_install (st : CatState) : List String :=
  widgetInstall st ++ (pySplit st.freeText).filter (fun x => hasSlash x)

/-- ControlNet remove list (lines 577-581). -/
def cn_remove (st : CatState) : List String :=
  widgetRemove st

/-- LoRA install list: checked-not-installed candidates plus all free-text
entries verbatim (lines 587-598). -/
def lora_install (st : CatState) : List String :=
  widgetInstall st ++ pySplit st.freeText

/-- LoRA remove list (lines 592-596). -/
def lora_remove (st : CatState) : List String :=
  widgetRemove st

/-- Textual-inversion install list: checked-not-installed candidates plus
all free-text entries verbatim (lines 602-614). -/
def ti_install (st : CatState) : List String :=
  widgetInstall st ++ pySplit st.freeText

/-- Textual-inversion remove list (lines 607-611). -/
def ti_remove (st : CatState) : List String :=
  widgetRemove st

/-- Whole-form snapshot handed to `marshall_arguments`. -/
structure FormState where
  starter_model_list : List String
  existing_models : List String
  starter_selected : List Nat
  starter_purge : Bool
  diffusers : CatState
  diffusers_purge : Bool
  autoload_directory : String
  autoscan_on_startup : Bool
  controlnet : CatState
  lora : CatState
  ti : CatState

/-- Source `starter_models = dict(map(lambda x: (self.starter_model_list[x], True),
...value))` (lines 549-554): the checked starter names. -/
def starter_checked (fs : FormState) : List String :=
  fs.starter_selected.filterMap (fun i => fs.starter_model_list.get? i)

/-- Source `selections.install_models = [x for x in starter_models if x not in
self.existing_models]` (line 558). -/
def starter_install_models (fs : FormState) : List String :=
  (starter_checked fs).filter (fun x => !(fs.existing_models.contains x))

/-- Source `selections.remove_models = [x for x in self.starter_model_list if x in
self.existing_models and x not in starter_models]` (line 559). -/
def starter_remove_models (fs : FormState) : List String :=
  fs.starter_model_list.filter
    (fun x => fs.existing_models.contains x && !((starter_checked fs).contains x))

/-- The fields of `UserSelections` that `marshall_arguments` assigns. -/
structure UserSelections where
  install_models : List String
  remove_models : List String
  purge_deleted_models : Bool
  import_model_paths : List String
  install_cn_models : List String
  remove_cn_models : List String
  install_lora_models : List String
  remove_lora_models : List String
  install_ti_models : List String
  remove_ti_models : List String
  scan_directory : String
  autoscan_on_startup : Bool

/-- The whole of `addModelsForm.marshall_arguments` (lines 534-618): assemble the
per-category install/remove lists, the OR of the two purge checkboxes
(lines 555-556), the free-text import paths (line 562, verbatim), the
diffusers remove extension (lines 563-569), and the scan-directory
options (lines 617-618). -/
def marshall_arguments (fs : FormState) : UserSelections where
  install_models := starter_install_models fs
  remove_models := starter_remove_models fs ++ widgetRemove fs.diffusers
  purge_deleted_models := fs.starter_purge || fs.diffusers_purge
  import_model_paths := pySplit fs.diffusers.freeText
  install_cn_models := cn_install fs.controlnet
  remove_cn_models := cn_remove fs.controlnet
  install_lora_models := lora_install fs.lora
  remove_lora_models := lora_remove fs.lora
  install_ti_models := ti_install fs.ti
  remove_ti_models := ti_remove fs.ti
  scan_directory := fs.autoload_directory
  autoscan_on_startup := fs.autoscan_on_startup

/-! ## Channel polling (`while_waiting`, lines 488-519) -/

/-- A message arriving on the controller side of the pipe: a decoded UTF-8
chunk delivered by `recv_bytes`. Read failures are not queue messages —
they persist on the connection — and are modelled separately by
`pollLoopFuel` below. -/
inductive Msg where
  | chunk (data : String)
deriving DecidableEq, Repr

/-- Events the polling loop hands to the presentation layer. -/
inductive LogEvent where
  | text (lines : List String) : LogEvent
  | completed : LogEvent
deriving DecidableEq, Repr

/-- The `while c.poll()` loop body of `while_waiting` on an error-free
channel, over the queue of pending messages. Returns whether
`self.subprocess_connection` still holds the connection afterwards, and
the events produced in order. A chunk equal to the exact string `*done*`
(the comparison uses the raw `data`; the `data.strip('\n')` on line 495 is
discarded) sets the stored connection to `None`, emits the completion
event and `break`s. Any other chunk is word-wrapped and buffered. The
read-failure path of the loop is modelled by `pollLoopFuel` below, since
a failure is not a consumable message. -/
def drainLoop (wrap : String → List String) : List Msg → Bool × List LogEvent
  | [] => (true, [])
  | Msg.chunk data :: rest =>
      let _stripped := pyStripNewlines data
      if data = "*done*" then
        (false, [LogEvent.completed])
      else
        let r := drainLoop wrap rest
        (r.1, LogEvent.text (wrap data) :: r.2)

/-- One call to `while_waiting`: `none` models
`self.subprocess_connection is None` (the `if c := ...` guard fails and
nothing happens); `some msgs` models a live connection whose pending
messages are `msgs`. Returns the connection state after the call and the
events produced. -/
def while_waiting (wrap : String → List String) :
    Option (List Msg) → Option (List Msg) × List LogEvent
  | none => (none, [])
  | some msgs =>
      let r := drainLoop wrap msgs
      (if r.1 then some [] else none, r.2)

/-! ## Completion rebuild of the log buffer (lines 496-507) -/

/-- Modelled from the spec: `BufferBox.buffer(lines)` (the widget class is
imported from `widgets.py`, which is not among the sources) appends the
given lines to the scrollback — §4.4 LogSink: "`append(lines ...)`;
`bufferedLines()` (full scrollback, append-only, monotonically growing)". -/
def bufferAppend (buf lines : List String) : List String :=
  buf ++ lines

/-- The sentinel branch of `while_waiting` as it affects the scrollback:
`monitor_widget.buffer(['** Action Complete **'])`, save
`monitor_widget.values`, rebuild the form, restore the saved messages into
the new monitor, then `buffer([''], scroll_end=True)` (lines 498-507).
Returns the new form's monitor buffer. -/
def completionRebuild (pre : List String) : List String :=
  let afterMarker := bufferAppend pre ["** Action Complete **"]
  let saved_messages := afterMarker
  bufferAppend saved_messages [""]

/-! ## Worker body (`process_and_execute`, lines 645-678) -/

/-- Operations the worker performs on its channel endpoint `conn_out`. -/
inductive ChannelOp where
  | send (data : String)
  | close
deriving DecidableEq, Repr

/-- Worker body `process_and_execute`: runs `install_requested_models` (the external
Installer, which returns normally or raises) and, only when it returned
normally and `conn_out` was supplied, sends the sentinel bytes and closes
the endpoint (lines 676-678). There is no `try/finally`: an exception from
the Installer propagates and the sentinel lines are never reached. Returns
the channel operations performed in order, and the propagated exception if
any. -/
def process_and_execute (connOut : Bool) (installerResult : Except String Unit) :
    List ChannelOp × Option String :=
  match installerResult with
  | Except.error e => ([], some e)
  | Except.ok _ =>
      ((if connOut then [ChannelOp.send "*done*", ChannelOp.close] else []), none)

/-! ## Validity of a selection snapshot -/

/-- The spec's SelectionState invariant: checked indices are valid
positions in the candidate order. -/
def validSel (st : CatState) : Prop :=
  ∀ i ∈ st.selected, i < st.candidates.length

/-- The checked indices are exactly the positions of the already-installed
candidates. -/
def selectsExactlyInstalled (st : CatState) : Prop :=
  ∀ i, i < st.candidates.length →
    (i ∈ st.selected ↔ st.installed (st.candidates.getD i "") = true)

/-! ## Concrete snapshots used in witnesses and counterexamples -/

/-- A category tab with no candidates, nothing installed, nothing typed. -/
def emptyCat : CatState := ⟨[], fun _ => false, [], ""⟩

/-! ## Membership lemmas for the marshalled lists -/

theorem mem_selectedNames {st : CatState} {m : String} :
    m ∈ selectedNames st ↔ ∃ i ∈ st.selected, st.candidates.get? i = some m := by
  simp [selectedNames]

theorem mem_baseInstall {st : CatState} {m : String} :
    m ∈ baseInstall st ↔ m ∈ selectedNames st ∧ st.installed m = false := by
  simp [baseInstall, List.mem_filter]

theorem mem_baseRemove {st : CatState} {x : String} :
    x ∈ baseRemove st ↔ x ∈ st.candidates ∧ st.installed x = true ∧
      st.selected.contains (st.candidates.indexOf x) = false := by
  simp [baseRemove, List.mem_filter, and_assoc]

theorem selectedNames_candidates_nil {st : CatState} (h : st.candidates = []) :
    selectedNames st = [] := by
  rcases List.eq_nil_or_concat (selectedNames st) with h0 | ⟨_, m, hm⟩
  · exact h0
  · exfalso
    have : m ∈ selectedNames st := by rw [hm]; simp
    rcases mem_selectedNames.mp this with ⟨i, _, hget⟩
    rw [h] at hget
    simp at hget

theorem widgetInstall_eq (st : CatState) : widgetInstall st = baseInstall st := by
  unfold widgetInstall
  split
  · next h =>
    rw [baseInstall, selectedNames_candidates_nil (List.isEmpty_iff.mp h)]
    rfl
  · rfl

theorem widgetRemove_eq (st : CatState) : widgetRemove st = baseRemove st := by
  unfold widgetRemove
  split
  · next h =>
    rw [baseRemove, List.isEmpty_iff.mp h]
    rfl
  · rfl

/-! ## C5: purge flag OR-merge -/

/-- Form state with the starter purge checkbox set and the diffusers purge
checkbox clear. -/
def purgeFS : FormState :=
  ⟨[], [], [], true, emptyCat, false, "", false, emptyCat, emptyCat, emptyCat⟩

/-- C5: the aggregated request's `purge_deleted_models` flag is the logical
OR of the two purge checkboxes that exist (starter tab and additional
diffusers tab); in particular, starter purge true and diffusers purge false
yields `true`. -/
theorem purge_flag_or_merge (fs : FormState) :
    (marshall_arguments fs).purge_deleted_models
        = (fs.starter_purge || fs.diffusers_purge) ∧
    (marshall_arguments purgeFS).purge_deleted_models = true :=
  ⟨rfl, rfl⟩

/-! ## C1: starter-category plan -/

/-- Starter tab with one catalog entry that is installed and unchecked. -/
def starterOnlyFS : FormState :=
  ⟨["stable-diffusion-1.5"], ["stable-diffusion-1.5"], [], false, emptyCat,
    false, "", false, emptyCat, emptyCat, emptyCat⟩

/-- C1 counterexample: in the starter category an identifier that is
installed (`existing_models`) and unchecked does enter the remove set
(line 559 computes `remove_models` from unchecking), contradicting the
claim that the starter remove set is never populated from unchecking. -/
theorem starter_unchecked_is_removed :
    "stable-diffusion-1.5" ∈ (marshall_arguments starterOnlyFS).remove_models := by
  decide

/-- C1 (amended): a starter identifier is planned for install iff it is
checked and not already installed, and it is planned for removal iff it is
in the starter catalog, already installed, and unchecked. -/
theorem starter_plan_characterization (fs : FormState) (x : String) :
    (x ∈ (marshall_arguments fs).install_models ↔
        x ∈ starter_checked fs ∧ ¬ x ∈ fs.existing_models) ∧
    (x ∈ starter_remove_models fs ↔
        x ∈ fs.starter_model_list ∧ x ∈ fs.existing_models ∧
          ¬ x ∈ starter_checked fs) := by
  constructor
  · show x ∈ starter_install_models fs ↔ _
    simp [starter_install_models, List.mem_filter]
  · simp [starter_remove_models, List.mem_filter, and_assoc]

/-! ## C2: free-text additivity -/

/-- ControlNet tab whose free-text entries contain no `/`. -/
def cnNoSlashFS : FormState :=
  ⟨[], [], [], false, emptyCat, false, "", false,
    ⟨[], fun _ => false, [], "model-a model-b"⟩, emptyCat, emptyCat⟩

/-- C2 counterexample: controlnet free-text entries are filtered (only
entries containing `/` are kept, line 583), so with free text
`"model-a model-b"` the resulting controlnet install list does not contain
`model-a` — the install set is not a superset of the typed entries. -/
theorem cn_free_text_filtered :
    ¬ ("model-a" ∈ (marshall_arguments cnNoSlashFS).install_cn_models) := by
  decide

/-- C2 (amended): free-text entries are appended verbatim, without any
installed-state lookup, for the additional-diffusers, lora and
textual-inversion categories; for the controlnet category a typed entry
reaches the install list through the free-text path only when it contains
a `/` (entries without `/` are dropped unless they independently come from
the checkbox path). -/
theorem free_text_additivity (fs : FormState) :
    (marshall_arguments fs).import_model_paths = pySplit fs.diffusers.freeText ∧
    (∀ x ∈ pySplit fs.lora.freeText,
        x ∈ (marshall_arguments fs).install_lora_models) ∧
    (∀ x ∈ pySplit fs.ti.freeText,
        x ∈ (marshall_arguments fs).install_ti_models) ∧
    (∀ x ∈ pySplit fs.controlnet.freeText,
        (x ∈ (marshall_arguments fs).install_cn_models ↔
          hasSlash x = true ∨ x ∈ widgetInstall fs.controlnet)) := by
  refine ⟨rfl, ?_, ?_, ?_⟩
  · intro x hx
    show x ∈ lora_install fs.lora
    exact List.mem_append_right _ hx
  · intro x hx
    show x ∈ ti_install fs.ti
    exact List.mem_append_right _ hx
  · intro x hx
    show x ∈ cn_install fs.controlnet ↔ _
    unfold cn_install
    rw [List.mem_append, List.mem_filter]
    constructor
    · rintro (h | ⟨_, h⟩)
      · exact Or.inr h
      · exact Or.inl h
    · rintro (h | h)
      · exact Or.inr ⟨hx, h⟩
      · exact Or.inl h

/-- Form state with free text typed into the lora, ti, diffusers and
controlnet tabs. -/
def freeTextFS : FormState :=
  ⟨[], [], [], false, ⟨[], fun _ => false, [], "org/model-a org/model-b"⟩,
    false, "", false, ⟨[], fun _ => false, [], "org/cn-a"⟩,
    ⟨[], fun _ => false, [], "my-lora"⟩, ⟨[], fun _ => false, [], "my-ti"⟩⟩

/-- C2 witness: evaluating the amended free-text property on a concrete
snapshot. -/
theorem free_text_additivity_witness :
    "my-lora" ∈ (marshall_arguments freeTextFS).install_lora_models ∧
    "my-ti" ∈ (marshall_arguments freeTextFS).install_ti_models ∧
    ("org/cn-a" ∈ (marshall_arguments freeTextFS).install_cn_models ↔
      hasSlash "org/cn-a" = true ∨ "org/cn-a" ∈ widgetInstall freeTextFS.controlnet) :=
  ⟨(free_text_additivity freeTextFS).2.1 "my-lora" (by decide),
   (free_text_additivity freeTextFS).2.2.1 "my-ti" (by decide),
   (free_text_additivity freeTextFS).2.2.2 "org/cn-a" (by decide)⟩

/-! ## C3: disjointness of install and remove -/

/-- LoRA tab with one installed, unchecked candidate whose name is also
typed into the free-text box. -/
def loraClashFS : FormState :=
  ⟨[], [], [], false, emptyCat, false, "", false, emptyCat,
    ⟨["my-lora"], fun _ => true, [], "my-lora"⟩, emptyCat⟩

/-- C3 counterexample: a free-text entry equal to an installed-but-unchecked
candidate appears in both the install list (free-text path, no
installed-state lookup) and the remove list, so `install ∩ remove = ∅`
fails on a valid SelectionState (the empty index selection is trivially
valid). -/
theorem lora_install_remove_overlap :
    "my-lora" ∈ (marshall_arguments loraClashFS).install_lora_models ∧
    "my-lora" ∈ (marshall_arguments loraClashFS).remove_lora_models := by
  decide

/-- C3 (amended): for every valid SelectionState in which no free-text
entry names an already-installed identifier, each per-category plan
satisfies `install ∩ remove = ∅` (starter, additional diffusers,
controlnet, lora, textual inversion). -/
theorem category_plans_disjoint (fs : FormState)
    (_hsv : ∀ i ∈ fs.starter_selected, i < fs.starter_model_list.length)
    (_hdv : validSel fs.diffusers) (_hcv : validSel fs.controlnet)
    (_hlv : validSel fs.lora) (_htv : validSel fs.ti)
    (hd : ∀ x ∈ pySplit fs.diffusers.freeText, fs.diffusers.installed x = false)
    (hc : ∀ x ∈ pySplit fs.controlnet.freeText, fs.controlnet.installed x = false)
    (hl : ∀ x ∈ pySplit fs.lora.freeText, fs.lora.installed x = false)
    (ht : ∀ x ∈ pySplit fs.ti.freeText, fs.ti.installed x = false) :
    (∀ x ∈ (marshall_arguments fs).install_models,
        ¬ x ∈ starter_remove_models fs) ∧
    (∀ x ∈ (marshall_arguments fs).import_model_paths,
        ¬ x ∈ widgetRemove fs.diffusers) ∧
    (∀ x ∈ (marshall_arguments fs).install_cn_models,
        ¬ x ∈ (marshall_arguments fs).remove_cn_models) ∧
    (∀ x ∈ (marshall_arguments fs).install_lora_models,
        ¬ x ∈ (marshall_arguments fs).remove_lora_models) ∧
    (∀ x ∈ (marshall_arguments fs).install_ti_models,
        ¬ x ∈ (marshall_arguments fs).remove_ti_models) := by
  have base_disj : ∀ (st : CatState) (x : String),
      x ∈ baseInstall st → ¬ x ∈ baseRemove st := by
    intro st x hi hr
    have h1 := (mem_baseInstall.mp hi).2
    have h2 := (mem_baseRemove.mp hr).2.1
    rw [h1] at h2
    exact Bool.false_ne_true h2
  have cat_disj : ∀ (st : CatState),
      (∀ x ∈ pySplit st.freeText, st.installed x = false) →
      ∀ (ft : List String), (∀ x ∈ ft, x ∈ pySplit st.freeText) →
      ∀ x ∈ widgetInstall st ++ ft, ¬ x ∈ widgetRemove st := by
    intro st hft ft hsub x hx hr
    rw [widgetRemove_eq] at hr
    rw [widgetInstall_eq, List.mem_append] at hx
    rcases hx with hx | hx
    · exact base_disj st x hx hr
    · have h1 := hft x (hsub x hx)
      have h2 := (mem_baseRemove.mp hr).2.1
      rw [h1] at h2
      exact Bool.false_ne_true h2
  refine ⟨?_, ?_, ?_, ?_, ?_⟩
  · intro x hi hr
    have h1 : (fs.existing_models.contains x) = false := by
      have := List.mem_filter.mp hi
      simpa using this.2
    have h2 : (fs.existing_models.contains x) = true := by
      have := List.mem_filter.mp hr
      simp at this
      simpa using this.2.1
    rw [h1] at h2
    exact Bool.false_ne_true h2
  · intro x hi hr
    rw [widgetRemove_eq] at hr
    have h1 := hd x hi
    have h2 := (mem_baseRemove.mp hr).2.1
    rw [h1] at h2
    exact Bool.false_ne_true h2
  · intro x hi hr
    refine cat_disj fs.controlnet hc
      ((pySplit fs.controlnet.freeText).filter (fun x => hasSlash x))
      (fun y hy => (List.mem_filter.mp hy).1) x hi hr
  · exact fun x hi hr => cat_disj fs.lora hl _ (fun y hy => hy) x hi hr
  · exact fun x hi hr => cat_disj fs.ti ht _ (fun y hy => hy) x hi hr

/-- A snapshot that is valid and whose free-text entries are not installed
identifiers. -/
def disjFS : FormState :=
  ⟨["sd-1"], ["sd-1"], [0], false,
    ⟨["extra-model"], fun _ => true, [], ""⟩, false, "", false,
    ⟨["cn-1"], fun x => x = "cn-1", [0], "org/cn-new"⟩,
    ⟨["lora-1"], fun x => x = "lora-1", [], "new-lora"⟩,
    ⟨[], fun _ => false, [], ""⟩⟩

/-- C3 witness: the amended disjointness theorem applied to a concrete
valid snapshot. -/
theorem category_plans_disjoint_witness :
    ¬ ("org/cn-new" ∈ (marshall_arguments disjFS).remove_cn_models) ∧
    ¬ ("new-lora" ∈ (marshall_arguments disjFS).remove_lora_models) :=
  ⟨(category_plans_disjoint disjFS (by decide)
      (by unfold validSel; decide) (by unfold validSel; decide)
      (by unfold validSel; decide) (by unfold validSel; decide)
      (by decide) (by decide) (by decide)
      (by decide)).2.2.1 "org/cn-new" (by decide),
   (category_plans_disjoint disjFS (by decide)
      (by unfold validSel; decide) (by unfold validSel; decide)
      (by unfold validSel; decide) (by unfold validSel; decide)
      (by decide) (by decide) (by decide)
      (by decide)).2.2.2.1 "new-lora" (by decide)⟩

/-! ## C4: reconciliation of an unchanged selection is a no-op -/

theorem getD_of_get? {l : List String} {i : Nat} {m : String}
    (h : l.get? i = some m) : l.getD i "" = m := by
  rw [List.getD_eq_getElem?_getD, ← List.get?_eq_getElem?, h]
  rfl

theorem baseInstall_eq_nil {st : CatState} (hv : validSel st)
    (he : selectsExactlyInstalled st) : baseInstall st = [] := by
  rw [List.eq_nil_iff_forall_not_mem]
  intro m hm
  obtain ⟨hsel, hni⟩ := mem_baseInstall.mp hm
  rcases mem_selectedNames.mp hsel with ⟨i, hi, hget⟩
  have hinst := (he i (hv i hi)).mp hi
  rw [getD_of_get? hget] at hinst
  rw [hni] at hinst
  exact Bool.false_ne_true hinst

theorem baseRemove_eq_nil {st : CatState} (he : selectsExactlyInstalled st) :
    baseRemove st = [] := by
  rw [List.eq_nil_iff_forall_not_mem]
  intro x hx
  obtain ⟨hmem, hinst, hncont⟩ := mem_baseRemove.mp hx
  have hidx : st.candidates.indexOf x < st.candidates.length :=
    List.indexOf_lt_length.mpr hmem
  have hget : st.candidates.get? (st.candidates.indexOf x) = some x := by
    rw [List.get?_eq_get hidx, List.indexOf_get]
  have hselmem : st.candidates.indexOf x ∈ st.selected := by
    refine (he _ hidx).mpr ?_
    rw [getD_of_get? hget]
    exact hinst
  have : st.selected.contains (st.candidates.indexOf x) = true :=
    List.elem_iff.mpr hselmem
  rw [hncont] at this
  exact Bool.false_ne_true this

theorem starter_install_eq_nil (fs : FormState)
    (hsv : ∀ i ∈ fs.starter_selected, i < fs.starter_model_list.length)
    (hs : ∀ i, i < fs.starter_model_list.length →
        (i ∈ fs.starter_selected ↔
          fs.starter_model_list.getD i "" ∈ fs.existing_models)) :
    starter_install_models fs = [] := by
  rw [List.eq_nil_iff_forall_not_mem]
  intro x hx
  obtain ⟨hch, hnex⟩ := List.mem_filter.mp hx
  rcases List.mem_filterMap.mp hch with ⟨i, hi, hget⟩
  have hex := (hs i (hsv i hi)).mp hi
  rw [getD_of_get? hget] at hex
  have : fs.existing_models.contains x = true := List.elem_iff.mpr hex
  rw [Bool.not_eq_true', this] at hnex
  exact Bool.noConfusion hnex

theorem starter_remove_eq_nil (fs : FormState)
    (hs : ∀ i, i < fs.starter_model_list.length →
        (i ∈ fs.starter_selected ↔
          fs.starter_model_list.getD i "" ∈ fs.existing_models)) :
    starter_remove_models fs = [] := by
  rw [List.eq_nil_iff_forall_not_mem]
  intro x hx
  obtain ⟨hmem, hcond⟩ := List.mem_filter.mp hx
  simp only [Bool.and_eq_true, Bool.not_eq_true'] at hcond
  obtain ⟨hex, hnch⟩ := hcond
  rcases List.mem_iff_get.mp hmem with ⟨⟨i, hlt⟩, hget⟩
  have hget? : fs.starter_model_list.get? i = some x := by
    rw [List.get?_eq_get hlt, hget]
  have hisel : i ∈ fs.starter_selected := by
    refine (hs i hlt).mpr ?_
    rw [getD_of_get? hget?]
    exact List.elem_iff.mp hex
  have hch : x ∈ starter_checked fs :=
    List.mem_filterMap.mpr ⟨i, hisel, hget?⟩
  have : (starter_checked fs).contains x = true := List.elem_iff.mpr hch
  rw [this] at hnch
  exact Bool.noConfusion hnch

theorem pySplit_empty : pySplit "" = [] := by decide

/-- C4: if, in every category, the checked indices select exactly the
already-installed identifiers and the free-text fields are empty, then
`marshall_arguments` produces empty install and remove lists for every
category (reconciliation of an unchanged selection is a no-op). -/
theorem reconcile_unchanged_noop (fs : FormState)
    (hsv : ∀ i ∈ fs.starter_selected, i < fs.starter_model_list.length)
    (hs : ∀ i, i < fs.starter_model_list.length →
        (i ∈ fs.starter_selected ↔
          fs.starter_model_list.getD i "" ∈ fs.existing_models))
    (_hdv : validSel fs.diffusers) (hd : selectsExactlyInstalled fs.diffusers)
    (hcv : validSel fs.controlnet) (hc : selectsExactlyInstalled fs.controlnet)
    (hlv : validSel fs.lora) (hl : selectsExactlyInstalled fs.lora)
    (htv : validSel fs.ti) (ht : selectsExactlyInstalled fs.ti)
    (hftd : fs.diffusers.freeText = "") (hftc : fs.controlnet.freeText = "")
    (hftl : fs.lora.freeText = "") (hftt : fs.ti.freeText = "") :
    (marshall_arguments fs).install_models = [] ∧
    (marshall_arguments fs).remove_models = [] ∧
    (marshall_arguments fs).import_model_paths = [] ∧
    (marshall_arguments fs).install_cn_models = [] ∧
    (marshall_arguments fs).remove_cn_models = [] ∧
    (marshall_arguments fs).install_lora_models = [] ∧
    (marshall_arguments fs).remove_lora_models = [] ∧
    (marshall_arguments fs).install_ti_models = [] ∧
    (marshall_arguments fs).remove_ti_models = [] := by
  have hwd := (widgetRemove_eq fs.diffusers).trans (baseRemove_eq_nil hd)
  have hwc := (widgetRemove_eq fs.controlnet).trans (baseRemove_eq_nil hc)
  have hwl := (widgetRemove_eq fs.lora).trans (baseRemove_eq_nil hl)
  have hwt := (widgetRemove_eq fs.ti).trans (baseRemove_eq_nil ht)
  have hic := (widgetInstall_eq fs.controlnet).trans (baseInstall_eq_nil hcv hc)
  have hil := (widgetInstall_eq fs.lora).trans (baseInstall_eq_nil hlv hl)
  have hit := (widgetInstall_eq fs.ti).trans (baseInstall_eq_nil htv ht)
  refine ⟨starter_install_eq_nil fs hsv hs, ?_, ?_, ?_, ?_, ?_, ?_, ?_, ?_⟩
  · show starter_remove_models fs ++ widgetRemove fs.diffusers = []
    rw [starter_remove_eq_nil fs hs, hwd]
    rfl
  · show pySplit fs.diffusers.freeText = []
    rw [hftd, pySplit_empty]
  · show cn_install fs.controlnet = []
    rw [cn_install, hic, hftc, pySplit_empty]
    rfl
  · exact hwc
  · show lora_install fs.lora = []
    rw [lora_install, hil, hftl, pySplit_empty]
    rfl
  · exact hwl
  · show ti_install fs.ti = []
    rw [ti_install, hit, hftt, pySplit_empty]
    rfl
  · exact hwt

/-- A snapshot whose checked indices are exactly the installed identifiers
and whose free-text fields are empty. -/
def noopFS : FormState :=
  ⟨["s1", "s2"], ["s1"], [0], false,
    ⟨["d1"], fun _ => true, [0], ""⟩, false, "", false,
    ⟨["c1", "c2"], fun x => x = "c1", [0], ""⟩,
    ⟨[], fun _ => false, [], ""⟩,
    ⟨["t1"], fun _ => true, [0], ""⟩⟩

/-- C4 witness: the no-op theorem applied to a concrete unchanged
selection. -/
theorem reconcile_unchanged_noop_witness :
    (marshall_arguments noopFS).install_models = [] ∧
    (marshall_arguments noopFS).remove_models = [] ∧
    (marshall_arguments noopFS).import_model_paths = [] ∧
    (marshall_arguments noopFS).install_cn_models = [] ∧
    (marshall_arguments noopFS).remove_cn_models = [] ∧
    (marshall_arguments noopFS).install_lora_models = [] ∧
    (marshall_arguments noopFS).remove_lora_models = [] ∧
    (marshall_arguments noopFS).install_ti_models = [] ∧
    (marshall_arguments noopFS).remove_ti_models = [] :=
  reconcile_unchanged_noop noopFS (by decide) (by decide)
    (by unfold validSel; decide) (by unfold selectsExactlyInstalled; decide)
    (by unfold validSel; decide) (by unfold selectsExactlyInstalled; decide)
    (by unfold validSel; decide) (by unfold selectsExactlyInstalled; decide)
    (by unfold validSel; decide) (by unfold selectsExactlyInstalled; decide)
    rfl rfl rfl rfl

/-! ## C6: streaming scenario -/

theorem drainLoop_chunks (wrap : String → List String) (ts : List String)
    (h : ∀ t ∈ ts, t ≠ "*done*") (tail : List Msg) :
    drainLoop wrap (ts.map Msg.chunk ++ tail) =
      ((drainLoop wrap tail).1,
        ts.map (fun t => LogEvent.text (wrap t)) ++ (drainLoop wrap tail).2) := by
  induction ts with
  | nil => simp
  | cons t ts ih =>
      have ht : t ≠ "*done*" := h t (List.mem_cons_self t ts)
      have hts : ∀ u ∈ ts, u ≠ "*done*" :=
        fun u hu => h u (List.mem_cons_of_mem t hu)
      simp [drainLoop, ht, ih hts]

/-- C6: if the worker writes a sequence of ordinary text chunks followed by
the sentinel, polling yields, in write order, one Text event per chunk
(word-wrapped by the supplied `wrap`) and then exactly one Completed event,
discards the connection, and any later poll on the discarded connection
yields no events. -/
theorem streaming_scenario (wrap : String → List String) (ts : List String)
    (h : ∀ t ∈ ts, t ≠ "*done*") :
    while_waiting wrap (some (ts.map Msg.chunk ++ [Msg.chunk "*done*"])) =
      (none, ts.map (fun t => LogEvent.text (wrap t)) ++ [LogEvent.completed]) ∧
    while_waiting wrap none = (none, []) := by
  constructor
  · show (let r := drainLoop wrap _; (if r.1 then some [] else none, r.2)) = _
    rw [drainLoop_chunks wrap ts h [Msg.chunk "*done*"]]
    simp [drainLoop]
  · rfl

/-- C6 witness: the two-chunk streaming scenario from the spec, with a
wrap function that keeps each chunk as a single line. -/
theorem streaming_scenario_witness :
    while_waiting (fun s => [s])
        (some [Msg.chunk "Fetching model X", Msg.chunk "Fetching model Y",
          Msg.chunk "*done*"]) =
      (none, [LogEvent.text ["Fetching model X"],
        LogEvent.text ["Fetching model Y"], LogEvent.completed]) ∧
    while_waiting (fun s => [s]) none = (none, []) :=
  streaming_scenario (fun s => [s]) ["Fetching model X", "Fetching model Y"]
    (by decide)

/-! ## C7: behaviour on a channel read failure

A read failure is not a consumable message: once the worker end is closed
(`EOFError`) the condition persists — `Connection.poll()` keeps reporting
the connection as readable and every `recv_bytes()` raises again. The
`except` clause on lines 518-519 assigns `self.subprocess_connection =
None`, but the loop condition on line 492 re-tests `c.poll()` on the
still-readable local handle `c`, so the `while` loop never exits.
`pollLoopFuel` models this faithfully by bounding the loop at a given
number of iterations and reporting whether it has exited. -/

/-- Result of running at most `fuel` iterations of the polling loop:
either the loop exited (returning whether `self.subprocess_connection`
still holds the connection, and the events produced), or it is still
looping after `fuel` iterations (with the events produced so far — each
chunk is buffered and displayed as soon as it is read). -/
inductive PollOutcome where
  | exited (connStored : Bool) (events : List LogEvent)
  | stillLooping (connStored : Bool) (events : List LogEvent)
deriving DecidableEq, Repr

/-- The `while c.poll()` loop of `while_waiting` (lines 492-519) with the
channel read end modelled as `pending` chunks followed, when `eof` is
true, by a persistent end-of-file condition (the worker end was closed
before the sentinel was written). `poll()` is true while chunks are
pending or the EOF condition holds; reading a chunk consumes it; reading
at EOF raises `EOFError`, which the `except` clause swallows after
setting `self.subprocess_connection = None` (tracked by `stored`) — the
connection state itself is unchanged, so the loop re-enters with the same
channel. `fuel` bounds the number of iterations examined. -/
def pollLoopFuel (wrap : String → List String) (fuel : Nat)
    (pending : List String) (eof stored : Bool) : PollOutcome :=
  if pending.isEmpty && !eof then
    PollOutcome.exited stored []
  else
    match fuel with
    | 0 => PollOutcome.stillLooping stored []
    | Nat.succ f =>
        match pending with
        | [] => pollLoopFuel wrap f [] eof false
        | data :: rest =>
            let _stripped := pyStripNewlines data
            if data = "*done*" then
              PollOutcome.exited false [LogEvent.completed]
            else
              match pollLoopFuel wrap f rest eof stored with
              | PollOutcome.exited st evs =>
                  PollOutcome.exited st (LogEvent.text (wrap data) :: evs)
              | PollOutcome.stillLooping st evs =>
                  PollOutcome.stillLooping st (LogEvent.text (wrap data) :: evs)

theorem pollLoopFuel_agrees_drainLoop (wrap : String → List String) :
    ∀ (fuel : Nat) (ts : List String), ts.length < fuel →
      pollLoopFuel wrap fuel ts false true =
        PollOutcome.exited (drainLoop wrap (ts.map Msg.chunk)).1
          (drainLoop wrap (ts.map Msg.chunk)).2 := by
  intro fuel
  induction fuel with
  | zero => intro ts h; exact absurd h (Nat.not_lt_zero _)
  | succ f ih =>
      intro ts h
      match ts with
      | [] => simp [pollLoopFuel, drainLoop]
      | d :: rest =>
          by_cases hd : d = "*done*"
          · simp [pollLoopFuel, drainLoop, hd]
          · have hr : rest.length < f := by
              have := h
              simp at this
              omega
            simp [pollLoopFuel, drainLoop, hd, ih rest hr]

theorem pollLoopFuel_eof_spins (wrap : String → List String) :
    ∀ (f : Nat) (stored : Bool),
      pollLoopFuel wrap (f + 1) [] true stored =
        PollOutcome.stillLooping false [] := by
  intro f
  induction f with
  | zero => intro stored; simp [pollLoopFuel]
  | succ f ih =>
      intro stored
      rw [pollLoopFuel]
      simp only [List.isEmpty_nil, Bool.not_true, Bool.and_false,
        Bool.false_eq_true, if_false]
      exact ih false

theorem pollLoopFuel_eof_never_exits (wrap : String → List String) :
    ∀ (f : Nat) (stored st : Bool) (evs : List LogEvent),
      pollLoopFuel wrap f [] true stored ≠ PollOutcome.exited st evs := by
  intro f
  cases f with
  | zero =>
      intro stored st evs h
      simp [pollLoopFuel] at h
  | succ f =>
      intro stored st evs h
      rw [pollLoopFuel_eof_spins] at h
      exact PollOutcome.noConfusion h

/-- C7: when the channel read fails before the sentinel arrives (worker
end closed after writing one text chunk), the polling call never exits its
loop: for every iteration bound the loop is still running, with the text
events for the chunks read before the failure already buffered and
`self.subprocess_connection` already cleared — the call never returns, so
no subsequent poll occurs, contradicting the claimed silent degrade into
event-free polls. -/
theorem disconnect_poll_spins (wrap : String → List String) (fuel : Nat) :
    pollLoopFuel wrap (fuel + 2) ["Fetching model X"] true true =
      PollOutcome.stillLooping false [LogEvent.text (wrap "Fetching model X")] ∧
    (∀ st evs, pollLoopFuel wrap fuel ["Fetching model X"] true true ≠
        PollOutcome.exited st evs) := by
  constructor
  · have hd : ("Fetching model X" : String) ≠ "*done*" := by decide
    rw [show fuel + 2 = (fuel + 1) + 1 from rfl, pollLoopFuel]
    simp only [List.isEmpty_cons, Bool.false_and, Bool.false_eq_true, if_false]
    simp only [hd, if_false]
    rw [pollLoopFuel_eof_spins]
  · intro st evs h
    cases fuel with
    | zero => simp [pollLoopFuel] at h
    | succ f =>
        have hd : ("Fetching model X" : String) ≠ "*done*" := by decide
        rw [pollLoopFuel] at h
        simp only [List.isEmpty_cons, Bool.false_and, Bool.false_eq_true,
          if_false] at h
        simp only [hd, if_false] at h
        rcases he : pollLoopFuel wrap f [] true true with ⟨st1, evs1⟩ | ⟨st1, evs1⟩
        · exact pollLoopFuel_eof_never_exits wrap f true st1 evs1 he
        · rw [he] at h
          simp at h

/-! ## C10: sentinel recognition is exact string equality -/

/-- C10: a received chunk triggers completion exactly when the decoded
string equals `*done*` with no surrounding characters; since the
`strip('\n')` result is discarded, the chunk `"*done*\n"` is ordinary log
text (it is wrapped and buffered, the connection stays live) even though
stripping its newlines would give the sentinel. -/
theorem sentinel_exact_match (wrap : String → List String) (s : String) :
    (while_waiting wrap (some [Msg.chunk s]) =
      if s = "*done*" then (none, [LogEvent.completed])
      else (some [], [LogEvent.text (wrap s)])) ∧
    while_waiting wrap (some [Msg.chunk "*done*\n"]) =
      (some [], [LogEvent.text (wrap "*done*\n")]) ∧
    pyStripNewlines "*done*\n" = "*done*" := by
  refine ⟨?_, ?_, by decide⟩
  · by_cases hs : s = "*done*"
    · simp [while_waiting, drainLoop, hs]
    · simp [while_waiting, drainLoop, hs]
  · have hne : ("*done*\n" : String) ≠ "*done*" := by decide
    simp [while_waiting, drainLoop, hne]

/-! ## C8: sentinel on worker exit paths -/

/-- C8 counterexample: when the Installer raises, `process_and_execute`
propagates the exception without writing the sentinel — the sentinel write
is not on every exit path (there is no `try/finally` around
`install_requested_models`). -/
theorem sentinel_skipped_on_raise :
    ¬ (ChannelOp.send "*done*" ∈
        (process_and_execute true (Except.error "installer failed")).1) := by
  decide

/-- C8 (amended): the worker writes the sentinel exactly once and then
closes its endpoint iff the Installer call returns normally (and a
connection was supplied); when the Installer raises, the exception
propagates and no channel operation is performed. -/
theorem sentinel_only_on_normal_exit (res : Except String Unit) :
    ((process_and_execute true res).1.count (ChannelOp.send "*done*") = 1 ↔
      res.isOk = true) ∧
    ((process_and_execute true res).1 =
      if res.isOk then [ChannelOp.send "*done*", ChannelOp.close] else []) ∧
    ((process_and_execute true res).2 = none ↔ res.isOk = true) := by
  cases res with
  | ok u =>
      cases u
      exact ⟨by decide, by rfl, by simp [process_and_execute, Except.isOk, Except.toBool]⟩
  | error e =>
      refine ⟨?_, by rfl, ?_⟩
      · simp [process_and_execute, Except.isOk, Except.toBool]
      · simp [process_and_execute, Except.isOk, Except.toBool]

/-! ## C9: scrollback preservation across the completion rebuild -/

/-- C9 counterexample: the rebuilt buffer is not exactly the pre-completion
buffer plus the marker line — `buffer([''], scroll_end=True)` on line 507
appends one further empty line. -/
theorem completion_rebuild_extra_blank :
    completionRebuild ["Processing..."] ≠
      ["Processing...", "** Action Complete **"] := by
  decide

/-- C9 (amended): after completion the rebuilt monitor buffer is the
pre-completion buffer with the `** Action Complete **` marker line and one
empty line appended; in particular every prior line is preserved verbatim,
in its original order, as a prefix. -/
theorem completion_rebuild_buffer (pre : List String) :
    completionRebuild pre = pre ++ ["** Action Complete **", ""] ∧
    (completionRebuild pre).take pre.length = pre := by
  have h1 : completionRebuild pre = pre ++ ["** Action Complete **", ""] := by
    simp [completionRebuild, bufferAppend]
  refine ⟨h1, ?_⟩
  rw [h1]
  exact List.take_left pre _

end ModelInstall
